import Mathlib

/-!
Verification of the telegram_media_downloader core against its
natural-language specification.

Each section below is a shallow embedding of one Python module of the
repository, translated directly from the source:

* `DownloadStat` — `src/module/download_stat.py` (`update_download_status`,
  the pause/cancel handling of the progress callback).
* `WebZipApi` — `src/module/web_zip_api.py` (`ZipDownloadManager`
  completion callbacks and the legacy status endpoint).
* `MsgDownloads` — `src/module/web/message_downloader/downloads.py`
  (the registered blueprint status endpoint).
* `MediaDownloader` — `src/media_downloader.py` (`_check_download_finish`,
  `_move_to_download_path`, `_can_download` and the corresponding steps of
  `download_media`).
* `AppDb` — `src/module/app_db.py` (`save_config_to_database` retry loop)
  and the write paths of `src/database/base_repository.py` /
  `src/database/database_manager.py`.
* `BaseRepository` — the relational operations of
  `src/database/base_repository.py` (`find_one`, `insert`, `update`,
  `upsert`) over an abstract table of rows.
* `CustomDownload` — `src/module/custom_download.py`
  (`mark_downloaded`, `mark_failed`, and the statement sequence of the
  tail of `CustomDownloadManager.update_download_status`).

Machine integers are modelled as `Int`/`Nat` (no overflow is relevant to
any claim), Python dicts as functions into `Option`, Python lists as
`List`, and the filesystem as a partial map from paths to sizes.
Concurrent reads of the global download state are modelled by giving the
progress callback an explicit trace of observed states, one observation
per read the source performs.
-/

namespace DownloadStat

/-- `DownloadState` of `src/module/download_stat.py` lines 11-18. -/
inductive DownloadState where
  | Idle
  | Downloading
  | StopDownload
  | Cancelled
  | Completed
deriving DecidableEq, Repr

/-- The fields of `module.app.TaskNode` read or written by
`update_download_status`: the per-job stop flag and the chat id, plus the
optional ZIP-manager id carried by `node.zip_download_manager.manager_id`
when a ZIP packager owns the node (set in
`src/module/web/message_downloader/downloads.py` line 630).  The class
itself lives in `module/app.py`; the fields are reconstructed from these
use sites. -/
structure TaskNode where
  chat_id : Int
  is_stop_transmission : Bool
  zip_manager_id : Option Nat
deriving DecidableEq, Repr

/-- Externally visible actions the progress callback performs on the
client / event loop. -/
inductive ClientAction where
  | stopTransmission
  | sleepOneSecond
deriving DecidableEq, Repr

/-- One iteration of the pause loop performs three environment reads:
`get_download_state()` at the `while` condition (line 81),
`get_download_state()` at the inner Cancelled re-check (line 83), and
`time.time()` at the pause-timeout check (line 89).  Because the state is
mutated by other threads, the three reads are independent observations. -/
structure PauseObs where
  whileState : DownloadState
  cancelState : DownloadState
  checkTime : Int
deriving DecidableEq, Repr

inductive PauseOutcome where
  /-- The `while` condition saw a state other than `StopDownload`. -/
  | exitedWhile
  /-- The inner re-check saw `Cancelled`: stop transmission and return. -/
  | cancelledReturn
  /-- `time.time() - pause_start_time > pause_timeout`: `break`. -/
  | brokeTimeout
  /-- The observation trace ended while the loop was still running. -/
  | exhausted
deriving DecidableEq, Repr

/-- `pause_timeout = 300` of `src/module/download_stat.py` line 78. -/
def pause_timeout : Int := 300

/-- The `while get_download_state() == DownloadState.StopDownload` loop of
`update_download_status` (lines 81-95).  `flag` is
`node.is_stop_transmission`, which the loop reads but never writes; the
loop body in source order: Cancelled re-check, pause-timeout check,
conditional `client.stop_transmission()`, `await asyncio.sleep(1)`. -/
def pauseLoop (pauseStart : Int) (flag : Bool) :
    List PauseObs → List ClientAction × PauseOutcome
  | [] => ([], .exhausted)
  | o :: rest =>
    if o.whileState ≠ DownloadState.StopDownload then ([], .exitedWhile)
    else if o.cancelState = DownloadState.Cancelled then
      ([ClientAction.stopTransmission], .cancelledReturn)
    else if o.checkTime - pauseStart > pause_timeout then ([], .brokeTimeout)
    else
      let tail := pauseLoop pauseStart flag rest
      ((if flag then [ClientAction.stopTransmission] else []) ++
        ClientAction.sleepOneSecond :: tail.1, tail.2)

inductive UpdateOutcome where
  /-- The entry check (line 72) saw `Cancelled` and returned. -/
  | returnedCancelledEntry
  /-- The pause-loop re-check saw `Cancelled` and returned. -/
  | returnedCancelledPaused
  /-- Control fell through to the bookkeeping part of the callback. -/
  | proceeded
  /-- The pause-loop observation trace was exhausted. -/
  | pauseExhausted
deriving DecidableEq, Repr

structure UpdateResult where
  node : TaskNode
  actions : List ClientAction
  outcome : UpdateOutcome
deriving DecidableEq, Repr

/-- Control-flow skeleton of `update_download_status`
(`src/module/download_stat.py` lines 50-95): the initial
`if node.is_stop_transmission: client.stop_transmission()` (line 66), the
entry Cancelled check (lines 72-75), and the pause loop (lines 77-95).
`entryState` is the `get_download_state()` read of line 72; `obs` are the
reads performed by the loop iterations.  The bookkeeping section
(lines 97 onward) touches only the progress statistics and is outside the
scope of the stop/pause claims. -/
def update_download_status (node : TaskNode) (entryState : DownloadState)
    (pauseStart : Int) (obs : List PauseObs) : UpdateResult :=
  let acts0 := if node.is_stop_transmission then [ClientAction.stopTransmission] else []
  if entryState = DownloadState.Cancelled then
    ⟨{ node with is_stop_transmission := true },
      acts0 ++ [ClientAction.stopTransmission], .returnedCancelledEntry⟩
  else
    let lp := pauseLoop pauseStart node.is_stop_transmission obs
    match lp.2 with
    | .cancelledReturn =>
      ⟨{ node with is_stop_transmission := true }, acts0 ++ lp.1, .returnedCancelledPaused⟩
    | .exhausted => ⟨node, acts0 ++ lp.1, .pauseExhausted⟩
    | _ => ⟨node, acts0 ++ lp.1, .proceeded⟩

/-- Modelled from the spec: the spec (§4.3 step 2, §4.8 "Overtake
semantics") describes a process-wide `(chat_id, message_id) → manager_id`
registry consulted by the progress callback, stopping the node when the
registry's current value differs from the node's manager id.  No such
registry or check exists anywhere under `src/`; this definition renders
the spec's words so they can be compared with the source-derived
`update_download_status`. -/
def update_download_status_specOvertake
    (registry : Int × Int → Option Nat) (message_id : Int)
    (node : TaskNode) (entryState : DownloadState)
    (pauseStart : Int) (obs : List PauseObs) : UpdateResult :=
  if node.zip_manager_id.isSome ∧ registry (node.chat_id, message_id) ≠ node.zip_manager_id then
    ⟨{ node with is_stop_transmission := true },
      [ClientAction.stopTransmission], .returnedCancelledEntry⟩
  else update_download_status node entryState pauseStart obs

end DownloadStat

namespace WebZipApi

/-- One element of `ZipDownloadManager.downloaded_files`
(`src/module/web_zip_api.py` lines 109-113): the dict
`{'message_id': …, 'file_path': …, 'size': …}`. -/
structure DlFile where
  message_id : Int
  file_path : String
  size : Int
deriving DecidableEq, Repr

/-- The completion-relevant state of `ZipDownloadManager`
(`src/module/web_zip_api.py` lines 18-31).  `create_zip_scheduled` counts
the `asyncio.create_task(self.create_zip_file())` calls issued by the two
callbacks (lines 121 and 134). -/
structure ZipDownloadManager where
  chat_id : Int
  message_ids : List Int
  downloaded_files : List DlFile
  failed_downloads : List String
  create_zip_scheduled : Nat
deriving DecidableEq, Repr

/-- `ZipDownloadManager.on_file_downloaded`
(`src/module/web_zip_api.py` lines 106-121): append the file record, then
schedule `create_zip_file` when
`len(downloaded_files) >= len(message_ids) - len(failed_downloads)`. -/
def on_file_downloaded (m : ZipDownloadManager) (message_id : Int)
    (file_path : String) (file_size : Int) : ZipDownloadManager :=
  let m := { m with
    downloaded_files := m.downloaded_files ++ [⟨message_id, file_path, file_size⟩] }
  let total_expected : Int := (m.message_ids.length : Int) - (m.failed_downloads.length : Int)
  if (m.downloaded_files.length : Int) ≥ total_expected then
    { m with create_zip_scheduled := m.create_zip_scheduled + 1 }
  else m

/-- `ZipDownloadManager.on_file_failed`
(`src/module/web_zip_api.py` lines 123-134): append the error entry, then
schedule `create_zip_file` when
`len(downloaded_files) + len(failed_downloads) >= len(message_ids)`.
The source formats the stored string as `f"訊息 {message_id}: {error}"`;
only the entry count matters to completion, so the raw error is kept. -/
def on_file_failed (m : ZipDownloadManager) (_message_id : Int)
    (error_message : String) : ZipDownloadManager :=
  let m := { m with failed_downloads := m.failed_downloads ++ [error_message] }
  if (m.downloaded_files.length : Int) + (m.failed_downloads.length : Int) ≥
      (m.message_ids.length : Int) then
    { m with create_zip_scheduled := m.create_zip_scheduled + 1 }
  else m

/-- One worker callback delivered to the manager: the worker loop of
`src/media_downloader.py` lines 719-734 calls `on_file_downloaded` for a
successful download and `on_file_failed` otherwise. -/
inductive ZipEvent where
  | downloaded (message_id : Int) (file_path : String) (file_size : Int)
  | failed (message_id : Int) (error_message : String)
deriving DecidableEq, Repr

def applyEvent (m : ZipDownloadManager) : ZipEvent → ZipDownloadManager
  | .downloaded mid p sz => on_file_downloaded m mid p sz
  | .failed mid e => on_file_failed m mid e

def runEvents (m : ZipDownloadManager) (evs : List ZipEvent) : ZipDownloadManager :=
  evs.foldl applyEvent m

/-- Fresh manager for chat `chat` and message-id list `ids`, with the
failures pre-recorded by `start_downloads_via_worker_pool` for media-less
messages (`src/module/web_zip_api.py` line 87) already in
`failed_downloads`. -/
def initManager (chat : Int) (ids : List Int) (pre : List String) : ZipDownloadManager :=
  ⟨chat, ids, [], pre, 0⟩

/-- View of one `ZipDownloadManager` as read by the HTTP status handlers:
list lengths, the `zip_ready` flag (`hasattr(..., 'zip_ready') and
zip_manager.zip_ready`), the `is_cancelled` flag, and the
`os.path.exists` / `os.path.getsize` results for `zip_path`. -/
structure ZipStatusView where
  message_ids_len : Nat
  downloaded_len : Nat
  failed_len : Nat
  zip_ready : Bool
  is_cancelled : Bool
  zip_file_exists : Bool
  zip_file_size : Nat
deriving DecidableEq, Repr

/-- `active_zip_managers`, the module-global dict keyed by manager id. -/
abbrev ZipRegistry := String → Option ZipStatusView

inductive ZipHttpResponse where
  /-- `jsonify(...), 404` — manager id unknown (legacy endpoint). -/
  | notFound404
  /-- `error_response(..., 410)` — manager id unknown or cancelled
  (blueprint endpoint). -/
  | gone410
  /-- `send_file(zip_manager.zip_path, ...)` — streams the archive. -/
  | fileStream
  /-- Progress JSON for an unfinished job (`completed: False`). -/
  | progressJson
  /-- Completion JSON (`completed: True, ready: True`), blueprint only. -/
  | readyJson
  /-- `'ZIP 檔案不存在或為空'`, status 500. -/
  | emptyError500
deriving DecidableEq, Repr

/-- `check_zip_download_status` of `src/module/web_zip_api.py`
lines 349-399 (the legacy `_flask_app` route, registered only if the
module were imported).  Note there is no inspection of any request
parameter: once `zip_ready` holds and the file is non-empty, *any* GET
deletes the manager from `active_zip_managers` (line 375) and streams the
file (line 377). -/
def check_zip_download_status_legacy (registry : ZipRegistry)
    (manager_id : String) : ZipHttpResponse × ZipRegistry :=
  match registry manager_id with
  | none => (.notFound404, registry)
  | some zm =>
    if zm.zip_ready then
      if zm.zip_file_exists ∧ zm.zip_file_size > 0 then
        (.fileStream, fun k => if k = manager_id then none else registry k)
      else (.emptyError500, registry)
    else (.progressJson, registry)

end WebZipApi

namespace MsgDownloads

open WebZipApi

/-- `check_zip_download_status` of
`src/module/web/message_downloader/downloads.py` lines 718-799 — the
endpoint actually registered (blueprint rule in
`src/module/web/message_downloader/__init__.py` line 61).
`downloadParam` is `request.args.get('download') == 'true'`.  The inner
"double check" of line 749 re-reads the same registry, which in this
sequential model still holds the manager. -/
def check_zip_download_status_bp (registry : ZipRegistry) (manager_id : String)
    (downloadParam : Bool) : ZipHttpResponse × ZipRegistry :=
  match registry manager_id with
  | none => (.gone410, registry)
  | some zm =>
    if zm.zip_ready then
      if zm.zip_file_exists ∧ zm.zip_file_size > 0 then
        if downloadParam then
          if (registry manager_id).isNone then (.gone410, registry)
          else if zm.is_cancelled then (.gone410, registry)
          else (.fileStream, fun k => if k = manager_id then none else registry k)
        else (.readyJson, registry)
      else (.emptyError500, registry)
    else (.progressJson, registry)

end MsgDownloads

namespace MediaDownloader

/-- Filesystem fragment relevant to the download finish check: a partial
map from paths to file sizes (`os.path.getsize`). -/
abbrev FileSystem := String → Option Int

inductive CheckResult where
  /-- `media_size == download_size`: success log, no exception. -/
  | passed
  /-- Size mismatch: `os.remove(download_path)` then
  `raise BadRequest()`. -/
  | raisedBadRequest
  /-- `os.path.getsize` had no file to measure. -/
  | fileMissing
deriving DecidableEq, Repr

/-- `_check_download_finish` of `src/media_downloader.py` lines 88-111:
compare the on-disk size of `download_path` with the declared
`media_size`; on mismatch delete the temp file and raise `BadRequest`. -/
def check_download_finish (media_size : Int) (fs : FileSystem)
    (download_path : String) : CheckResult × FileSystem :=
  match fs download_path with
  | none => (.fileMissing, fs)
  | some download_size =>
    if media_size = download_size then (.passed, fs)
    else (.raisedBadRequest, fun q => if q = download_path then none else fs q)

/-- `_move_to_download_path` of `src/media_downloader.py` lines 114-129:
`os.makedirs(directory, exist_ok=True)` then
`shutil.move(temp_download_path, download_path)`. -/
def move_to_download_path (fs : FileSystem) (temp_download_path download_path : String) :
    FileSystem :=
  fun q =>
    if q = download_path then fs temp_download_path
    else if q = temp_download_path then none
    else fs q

inductive DownloadFinishOutcome where
  /-- `return DownloadStatus.SuccessDownload, file_name` (line 617). -/
  | successDownload (final_path : String)
  /-- `BadRequest` raised by the size check, caught by the retry loop of
  `download_media` (line 628). -/
  | badRequestRaised
  /-- The temp file was missing (not a completed transfer). -/
  | tempMissing
deriving DecidableEq, Repr

/-- The post-download step of `download_media`
(`src/media_downloader.py` lines 612-617) for a completed transfer:
`_check_download_finish(media_size, temp_download_path, ui_file_name)`,
then `_move_to_download_path(temp_download_path, file_name)`, then
`return DownloadStatus.SuccessDownload, file_name`. -/
def download_media_success_step (media_size : Int) (fs : FileSystem)
    (temp_download_path file_name : String) : DownloadFinishOutcome × FileSystem :=
  match check_download_finish media_size fs temp_download_path with
  | (.passed, fs1) =>
    (.successDownload file_name, move_to_download_path fs1 temp_download_path file_name)
  | (.raisedBadRequest, fs1) => (.badRequestRaised, fs1)
  | (.fileMissing, fs1) => (.tempMissing, fs1)

/-- The media-type list of `_can_download`
(`src/media_downloader.py` line 169). -/
def formatCheckedTypes : List String := ["audio", "document", "video"]

inductive CanDownloadResult where
  | ok (allowed : Bool)
  /-- `allowed_formats[0]` on an empty list raises `IndexError`. -/
  | indexError
deriving DecidableEq, Repr

/-- `_can_download` of `src/media_downloader.py` lines 149-173.
`file_format` is `Optional[str]`; Python's `None in allowed_formats` is
false for a list of strings. -/
def can_download (t : String) (file_formats : String → List String)
    (file_format : Option String) : CanDownloadResult :=
  if formatCheckedTypes.contains t then
    let allowed_formats := file_formats t
    let isIn : Bool :=
      match file_format with
      | some f => allowed_formats.contains f
      | none => false
    if isIn = false then
      match allowed_formats with
      | [] => .indexError
      | a :: _ => if a ≠ "all" then .ok false else .ok true
    else .ok true
  else .ok true

inductive FormatGate where
  /-- `return DownloadStatus.SkipDownload, None` (line 560): skipped with
  no file produced. -/
  | skipNoFile
  /-- The format check passed; `download_media` continues. -/
  | proceedToDownload
  | raisedIndexError
deriving DecidableEq, Repr

/-- The format gate of `download_media`
(`src/media_downloader.py` lines 539-560): `if _can_download(_type,
file_formats, file_format): … else: return DownloadStatus.SkipDownload,
None`. -/
def download_media_format_gate (t : String) (file_formats : String → List String)
    (file_format : Option String) : FormatGate :=
  match can_download t file_formats file_format with
  | .ok true => .proceedToDownload
  | .ok false => .skipNoFile
  | .indexError => .raisedIndexError

end MediaDownloader

namespace AppDb

/-- Outcome of one attempted write against the SQLite store. -/
inductive WriteAttemptOutcome where
  | ok
  /-- `sqlite3.OperationalError` whose text contains
  `"database is locked"`. -/
  | lockedError
  | otherError
deriving DecidableEq, Repr

inductive SaveResult where
  | saved
  /-- Lock error surfaced after the retry budget was exhausted. -/
  | gaveUpLocked
  /-- A non-lock exception surfaced (no retry). -/
  | gaveUpOther
  /-- The `while` condition was already false (unreachable from the
  initial call). -/
  | noAttempt
deriving DecidableEq, Repr

/-- The `while retry_count < max_retries` loop of
`DatabaseApplication.save_config_to_database`
(`src/module/app_db.py` lines 326-373) with `max_retries = 3`.
`attempts k` is the outcome of the `k`-th attempted save; the returned
list records the `time.sleep(2 ** retry_count)` backoff sleeps, in
seconds.  A lock error retries only while `retry_count < max_retries - 1`;
otherwise the loop logs and breaks.  The `fuel` argument only bounds the
structural recursion; `fuel = 3` is never exhausted because `retry_count`
grows with every recursive call. -/
def saveConfigLoop (attempts : Nat → WriteAttemptOutcome) :
    Nat → Nat → Nat → List Int → SaveResult × List Int
  | 0, _, _, sleeps => (.noAttempt, sleeps)
  | fuel + 1, retry_count, attempt_idx, sleeps =>
    if retry_count < 3 then
      match attempts attempt_idx with
      | .ok => (.saved, sleeps)
      | .otherError => (.gaveUpOther, sleeps)
      | .lockedError =>
        if retry_count < 3 - 1 then
          saveConfigLoop attempts fuel (retry_count + 1) (attempt_idx + 1)
            (sleeps ++ [2 ^ (retry_count + 1)])
        else (.gaveUpLocked, sleeps)
    else (.noAttempt, sleeps)

/-- `DatabaseApplication.save_config_to_database`
(`src/module/app_db.py` lines 326-373). -/
def save_config_to_database (attempts : Nat → WriteAttemptOutcome) :
    SaveResult × List Int :=
  saveConfigLoop attempts 3 0 0 []

inductive RepoWriteResult where
  | completed (rowid : Nat)
  /-- `BaseRepository.insert` wraps any exception as
  `raise Exception(f"Insert failed: {e}")`;
  `DatabaseManager.execute_query` logs and `raise`s.  Either way the
  error surfaces at once. -/
  | raisedImmediately
deriving DecidableEq, Repr

/-- The error behaviour of a repository write:
`BaseRepository.insert` (`src/database/base_repository.py` lines 181-211)
and `DatabaseManager.execute_query`
(`src/database/database_manager.py` lines 150-178) contain no retry loop
and no backoff sleep; any exception, lock contention included, is
re-raised on the spot.  The returned list records backoff sleeps — always
empty. -/
def repository_write (outcome : WriteAttemptOutcome) (rowid : Nat) :
    RepoWriteResult × List Int :=
  match outcome with
  | .ok => (.completed rowid, [])
  | .lockedError => (.raisedImmediately, [])
  | .otherError => (.raisedImmediately, [])

end AppDb

namespace BaseRepository

/-- One table row: the SQLite rowid plus the column values, as a partial
map column-name → serialized value (`sqlite3.Row`). -/
structure DbRow where
  id : Nat
  fields : String → Option String

/-- A table as seen through one repository: the stored rows in insertion
order and the next rowid `cursor.lastrowid` would hand out. -/
structure DbTable where
  rows : List DbRow
  next_id : Nat

/-- A row satisfies an equality `WHERE` clause built by
`_build_where_clause` (`src/database/base_repository.py` lines 65-93)
from scalar conditions. -/
def rowMatches (conds : List (String × String)) (r : DbRow) : Bool :=
  conds.all fun c => r.fields c.1 == some c.2

/-- `BaseRepository.find_one` (`src/database/base_repository.py`
lines 148-159): `find_all(conditions, limit=1)` — the first row of the
table, in stored order, matching the conditions. -/
def find_one (tbl : DbTable) (conds : List (String × String)) : Option DbRow :=
  tbl.rows.find? (rowMatches conds)

/-- `BaseRepository.update` (`src/database/base_repository.py`
lines 246-272): no-op on empty conditions or empty data, else
`UPDATE … SET k=v,… WHERE conds` — every matching row has the data
columns overwritten.  (The refreshed `updated_at` timestamp is one of
the `data` columns and does not affect any key column.) -/
def update (tbl : DbTable) (conds : List (String × String))
    (data : List (String × String)) : DbTable :=
  if conds.isEmpty || data.isEmpty then tbl
  else
    { tbl with
      rows := tbl.rows.map fun r =>
        if rowMatches conds r then
          { r with fields := fun f =>
              match data.lookup f with
              | some v => some v
              | none => r.fields f }
        else r }

/-- `BaseRepository.insert` (`src/database/base_repository.py`
lines 181-211): `None` on empty data, else append a fresh row holding
exactly the data columns and return `cursor.lastrowid`. -/
def insert (tbl : DbTable) (data : List (String × String)) : Option Nat × DbTable :=
  if data.isEmpty then (none, tbl)
  else
    (some tbl.next_id,
      ⟨tbl.rows ++ [⟨tbl.next_id, fun f => data.lookup f⟩], tbl.next_id + 1⟩)

/-- The conditions dict built by `BaseRepository.upsert` (line 308):
`{field: data[field] for field in unique_fields if field in data}`. -/
def upsertConds (unique_fields : List String) (data : List (String × String)) :
    List (String × String) :=
  unique_fields.filterMap fun f => (data.lookup f).map fun v => (f, v)

/-- `BaseRepository.upsert` (`src/database/base_repository.py`
lines 296-317): look the record up by its unique-field values; update the
existing row and return `existing.get('id')`, or insert a new row. -/
def upsert (tbl : DbTable) (unique_fields : List String)
    (data : List (String × String)) : Option Nat × DbTable :=
  let conds := upsertConds unique_fields data
  match find_one tbl conds with
  | some existing => (some existing.id, update tbl conds data)
  | none => insert tbl data

/-- Number of stored rows carrying the given key values. -/
def matchCount (tbl : DbTable) (conds : List (String × String)) : Nat :=
  (tbl.rows.filter (rowMatches conds)).length

end BaseRepository

namespace CustomDownload

/-- The two persistent dicts of `CustomDownloadManager`
(`src/module/custom_download.py` lines 24-25):
`downloaded_ids: Dict[str, List[int]]` and
`failed_ids: Dict[str, List[int]]`. -/
structure History where
  downloaded_ids : String → Option (List Int)
  failed_ids : String → Option (List Int)

def dictSet (m : String → Option (List Int)) (k : String) (v : List Int) :
    String → Option (List Int) :=
  fun q => if q = k then some v else m q

def dictDel (m : String → Option (List Int)) (k : String) :
    String → Option (List Int) :=
  fun q => if q = k then none else m q

/-- `CustomDownloadManager.mark_downloaded`
(`src/module/custom_download.py` lines 61-73): ensure the chat key exists
in `downloaded_ids`, append the id if absent, then remove the id from the
chat's failed list (`list.remove`: first occurrence) and drop the chat
key from `failed_ids` if the list became empty. -/
def mark_downloaded (h : History) (chat_key : String) (message_id : Int) : History :=
  let d0 :=
    match h.downloaded_ids chat_key with
    | none => dictSet h.downloaded_ids chat_key []
    | some _ => h.downloaded_ids
  let cur := (d0 chat_key).getD []
  let d1 := if message_id ∈ cur then d0 else dictSet d0 chat_key (cur ++ [message_id])
  let f1 :=
    match h.failed_ids chat_key with
    | some l =>
      if message_id ∈ l then
        let l' := l.erase message_id
        if l' = [] then dictDel h.failed_ids chat_key
        else dictSet h.failed_ids chat_key l'
      else h.failed_ids
    | none => h.failed_ids
  ⟨d1, f1⟩

/-- `CustomDownloadManager.mark_failed`
(`src/module/custom_download.py` lines 75-81): ensure the chat key exists
in `failed_ids` and append the id if absent. -/
def mark_failed (h : History) (chat_key : String) (message_id : Int) : History :=
  let f0 :=
    match h.failed_ids chat_key with
    | none => dictSet h.failed_ids chat_key []
    | some _ => h.failed_ids
  let cur := (f0 chat_key).getD []
  let f1 := if message_id ∈ cur then f0 else dictSet f0 chat_key (cur ++ [message_id])
  ⟨h.downloaded_ids, f1⟩

/-- `module.app.DownloadStatus` values consulted by the finalizer loop of
`CustomDownloadManager.update_download_status` (lines 561-596); the class
itself lives in `module/app.py`, its members are reconstructed from the
use sites in `src/module/custom_download.py` and
`src/media_downloader.py`. -/
inductive PyDownloadStatus where
  | Downloading
  | SuccessDownload
  | FailedDownload
  | SkipDownload
deriving DecidableEq, Repr

/-- One entry of `self.download_nodes` (a `(node, chat_id, message_id)`
triple, line 372) as read by the final loop: `status` is
`node.download_status[message_id]` when present. -/
structure DownloadNodeEntry where
  chat_key : String
  message_id : Int
  status : Option PyDownloadStatus
deriving DecidableEq, Repr

/-- Manager state touched by the tail of
`CustomDownloadManager.update_download_status`
(`src/module/custom_download.py` lines 557-698).  `history_saved` records
whether `self.save_history()` ran in this call; `target_ids_pruned` and
`task_node_finished` stand for the app-config pruning block
(lines 610-649) and the task-node / global-result cleanup block
(lines 651-678), which touch neither the history file nor the two
tracking collections. -/
structure FinalizerState where
  history : History
  pending_downloads : String → Option (List Int)
  download_nodes : List DownloadNodeEntry
  successful_count : Nat
  failed_count : Nat
  history_saved : Bool
  target_ids_pruned : Bool
  task_node_finished : Bool

/-- One iteration of the final status loop
(`src/module/custom_download.py` lines 561-596): success and skip mark
the message downloaded and count as successful; failed, any other
status, and a missing status mark it failed. -/
def aggregateOne (s : FinalizerState) (e : DownloadNodeEntry) : FinalizerState :=
  match e.status with
  | some .SuccessDownload =>
    { s with history := mark_downloaded s.history e.chat_key e.message_id,
             successful_count := s.successful_count + 1 }
  | some .SkipDownload =>
    { s with history := mark_downloaded s.history e.chat_key e.message_id,
             successful_count := s.successful_count + 1 }
  | some .FailedDownload =>
    { s with history := mark_failed s.history e.chat_key e.message_id,
             failed_count := s.failed_count + 1 }
  | some .Downloading =>
    { s with history := mark_failed s.history e.chat_key e.message_id,
             failed_count := s.failed_count + 1 }
  | none =>
    { s with history := mark_failed s.history e.chat_key e.message_id,
             failed_count := s.failed_count + 1 }

/-- The whole final status loop (lines 557-596), with the two counters
starting at 0 as in the source (lines 558-559). -/
def aggregateOutcomes (s : FinalizerState) : FinalizerState :=
  s.download_nodes.foldl aggregateOne { s with successful_count := 0, failed_count := 0 }

/-- The dict `{'successful_count': …, 'failed_count': …,
'total_count': successful_count + failed_count}` returned at
lines 687-691. -/
structure FinalStats where
  successful_count : Nat
  failed_count : Nat
  total_count : Nat
deriving DecidableEq, Repr

/-- Statement-level rendering of the tail of
`CustomDownloadManager.update_download_status`, in source order. -/
inductive FinalStmt where
  /-- Final status loop, lines 557-596. -/
  | aggregate
  /-- Final web-progress update, lines 598-608 (no manager state). -/
  | finalProgressUpdate
  /-- Removal of finished ids from `target_ids`, lines 610-649. -/
  | pruneTargetIds
  /-- Task-node / download-result cleanup, lines 651-678. -/
  | finishTaskNode
  /-- `return {...}` of lines 687-691. -/
  | returnStats
  /-- `self.save_history()` of line 694. -/
  | saveHistory
  /-- `self.pending_downloads.clear()` of line 697. -/
  | clearPendingDownloads
  /-- `self.download_nodes.clear()` of line 698. -/
  | clearDownloadNodes
deriving DecidableEq, Repr

def applyFinalStmt (s : FinalizerState) : FinalStmt → FinalizerState
  | .aggregate => aggregateOutcomes s
  | .finalProgressUpdate => s
  | .pruneTargetIds => { s with target_ids_pruned := true }
  | .finishTaskNode => { s with task_node_finished := true }
  | .returnStats => s
  | .saveHistory => { s with history_saved := true }
  | .clearPendingDownloads => { s with pending_downloads := fun _ => none }
  | .clearDownloadNodes => { s with download_nodes := [] }

/-- Execute a statement sequence under Python semantics: a `return`
stops execution and yields the stats value; statements after it never
run. -/
def execFinal : List FinalStmt → FinalizerState → FinalizerState × Option FinalStats
  | [], s => (s, none)
  | .returnStats :: _, s =>
    (s, some ⟨s.successful_count, s.failed_count, s.successful_count + s.failed_count⟩)
  | stmt :: rest, s => execFinal rest (applyFinalStmt s stmt)

/-- The statement sequence of
`CustomDownloadManager.update_download_status` from line 557 to the end
of the method, as written in the source: the `return` of line 687
precedes the `save_history` / `clear` statements of lines 694-698. -/
def finalizerTail : List FinalStmt :=
  [.aggregate, .finalProgressUpdate, .pruneTargetIds, .finishTaskNode,
   .returnStats, .saveHistory, .clearPendingDownloads, .clearDownloadNodes]

/-- Entries counted as successful by the final loop. -/
def isSuccessOutcome (e : DownloadNodeEntry) : Bool :=
  e.status == some PyDownloadStatus.SuccessDownload ||
    e.status == some PyDownloadStatus.SkipDownload

end CustomDownload

/-! Concrete instances used by counterexamples and witnesses. -/

/-- A node owned by a ZIP manager with id 1 (as claim C1 posits). -/
def c1Node : DownloadStat.TaskNode := ⟨-100123, false, some 1⟩

/-- A registry whose current entry for every `(chat, message)` is manager
2 — differing from `c1Node`'s manager id. -/
def c1Registry : Int × Int → Option Nat := fun _ => some 2

/-- A single observation of a running (not paused, not cancelled)
state. -/
def c1Obs : List DownloadStat.PauseObs :=
  [⟨DownloadStat.DownloadState.Downloading, DownloadStat.DownloadState.Downloading, 0⟩]

/-- A pause held indefinitely, observed once per second from `t = 0`:
the `k`-th loop iteration reads `StopDownload` twice and checks the
clock at `t = k`. -/
def c6Trace : List DownloadStat.PauseObs :=
  (List.range 302).map fun k =>
    ⟨DownloadStat.DownloadState.StopDownload, DownloadStat.DownloadState.StopDownload, (k : Int)⟩

/-- A finished ZIP manager: `zip_ready`, archive on disk, non-empty. -/
def c3Mgr : WebZipApi.ZipStatusView := ⟨3, 2, 1, true, false, true, 1024⟩

/-- Registry holding exactly the finished manager `"m1"`. -/
def c3Reg : WebZipApi.ZipRegistry := fun k => if k = "m1" then some c3Mgr else none

/-! Theorems. -/

open WebZipApi MsgDownloads in
/-- C3 (amended): for the registered blueprint endpoint
(`src/module/web/message_downloader/downloads.py`), a ready manager with
a non-empty archive is streamed exactly once — only on a
`?download=true` request, which removes the manager from the registry —
while a status request without the `download` parameter returns the
completion JSON with no side effect (the registry is untouched), and any
GET after the archive has been served gets `410 Gone` and is never
served the file again.  The legacy `web_zip_api.py` endpoint, which the
claim's sources cite, instead streams on any GET once ready (see the
counterexample). -/
theorem C3_zip_serving (registry : WebZipApi.ZipRegistry) (mid : String)
    (zm : WebZipApi.ZipStatusView)
    (hreg : registry mid = some zm)
    (hready : zm.zip_ready = true)
    (hex : zm.zip_file_exists = true)
    (hsz : 0 < zm.zip_file_size)
    (hcanc : zm.is_cancelled = false) :
    ((check_zip_download_status_bp registry mid true).1 = ZipHttpResponse.fileStream) ∧
    ((check_zip_download_status_bp registry mid true).2 mid = none) ∧
    (∀ k, k ≠ mid → (check_zip_download_status_bp registry mid true).2 k = registry k) ∧
    ((check_zip_download_status_bp registry mid false).1 = ZipHttpResponse.readyJson) ∧
    (∀ k, (check_zip_download_status_bp registry mid false).2 k = registry k) ∧
    (∀ d, (check_zip_download_status_bp
        (check_zip_download_status_bp registry mid true).2 mid d).1
      = ZipHttpResponse.gone410) := by
  refine ⟨?_, ?_, ?_, ?_, ?_, ?_⟩
  · simp [check_zip_download_status_bp, hreg, hready, hex, hsz, hcanc]
  · simp [check_zip_download_status_bp, hreg, hready, hex, hsz, hcanc]
  · intro k hk
    simp [check_zip_download_status_bp, hreg, hready, hex, hsz, hcanc, hk]
  · simp [check_zip_download_status_bp, hreg, hready, hex, hsz]
  · intro k
    simp [check_zip_download_status_bp, hreg, hready, hex, hsz]
  · intro d
    have h2 : (check_zip_download_status_bp registry mid true).2 mid = none := by
      simp [check_zip_download_status_bp, hreg, hready, hex, hsz, hcanc]
    generalize hg : (check_zip_download_status_bp registry mid true).2 = R2 at h2 ⊢
    simp [check_zip_download_status_bp, h2]

open WebZipApi MsgDownloads in
/-- Witness for C3 (amended) on the concrete one-manager registry
`c3Reg`. -/
theorem C3_zip_serving_witness :
    (c3Reg "m1" = some c3Mgr) ∧ (c3Mgr.zip_ready = true) ∧
    ((check_zip_download_status_bp c3Reg "m1" true).1 = ZipHttpResponse.fileStream) ∧
    ((check_zip_download_status_bp c3Reg "m1" false).1 = ZipHttpResponse.readyJson) :=
  ⟨rfl, rfl,
    (C3_zip_serving c3Reg "m1" c3Mgr rfl rfl rfl (by decide) rfl).1,
    (C3_zip_serving c3Reg "m1" c3Mgr rfl rfl rfl (by decide) rfl).2.2.2.1⟩

open WebZipApi in
/-- Counterexample to C3 as stated: on the endpoint the claim's sources
cite (`check_zip_download_status` of `src/module/web_zip_api.py`,
lines 349-399), a status request *without* the `download` parameter does
not return progress JSON without side effects — there is no `download`
parameter check at all, so the GET streams the archive and removes the
manager from the registry. -/
theorem C3_counterexample :
    ((check_zip_download_status_legacy c3Reg "m1").1 = ZipHttpResponse.fileStream) ∧
    ((check_zip_download_status_legacy c3Reg "m1").1 ≠ ZipHttpResponse.progressJson) ∧
    ((check_zip_download_status_legacy c3Reg "m1").2 "m1" = none) := by
  decide

open MediaDownloader in
/-- C4: for every completed transfer the post-download size check raises
`BadRequest` and deletes the temp file exactly when the temp file's
on-disk size differs from the media object's declared `file_size`;
otherwise the temp file is moved to its final path and `SuccessDownload`
with that path is returned.  (Instantiated at `media_size = 0` with an
empty file in the witness: a zero-byte declared size passes the check.) -/
theorem C4_size_check (media_size sz : Int) (fs : FileSystem)
    (temp final : String) (htemp : fs temp = some sz) (hne : temp ≠ final) :
    (sz ≠ media_size →
      (download_media_success_step media_size fs temp final).1 =
          DownloadFinishOutcome.badRequestRaised ∧
      (download_media_success_step media_size fs temp final).2 temp = none) ∧
    (sz = media_size →
      (download_media_success_step media_size fs temp final).1 =
          DownloadFinishOutcome.successDownload final ∧
      (download_media_success_step media_size fs temp final).2 final = some sz ∧
      (download_media_success_step media_size fs temp final).2 temp = none) := by
  constructor
  · intro hmm
    have hms : ¬ media_size = sz := fun h => hmm h.symm
    simp [download_media_success_step, check_download_finish, htemp, hms]
  · intro heq
    subst heq
    simp [download_media_success_step, check_download_finish, htemp,
      move_to_download_path, hne, Ne.symm hne]

open MediaDownloader in
/-- Witness for C4 at a zero-byte file whose declared size is 0: the
check passes, the file is moved to its final path, success returned. -/
theorem C4_size_check_witness :
    ((fun p => if p = "tmp/a.mp4" then some (0 : Int) else none) "tmp/a.mp4"
        = some (0 : Int)) ∧
    (("tmp/a.mp4" : String) ≠ "save/a.mp4") ∧
    (((0 : Int) ≠ 0 →
      (download_media_success_step 0
          (fun p => if p = "tmp/a.mp4" then some (0 : Int) else none)
          "tmp/a.mp4" "save/a.mp4").1 = DownloadFinishOutcome.badRequestRaised ∧
      (download_media_success_step 0
          (fun p => if p = "tmp/a.mp4" then some (0 : Int) else none)
          "tmp/a.mp4" "save/a.mp4").2 "tmp/a.mp4" = none) ∧
    ((0 : Int) = 0 →
      (download_media_success_step 0
          (fun p => if p = "tmp/a.mp4" then some (0 : Int) else none)
          "tmp/a.mp4" "save/a.mp4").1 = DownloadFinishOutcome.successDownload "save/a.mp4" ∧
      (download_media_success_step 0
          (fun p => if p = "tmp/a.mp4" then some (0 : Int) else none)
          "tmp/a.mp4" "save/a.mp4").2 "save/a.mp4" = some (0 : Int) ∧
      (download_media_success_step 0
          (fun p => if p = "tmp/a.mp4" then some (0 : Int) else none)
          "tmp/a.mp4" "save/a.mp4").2 "tmp/a.mp4" = none)) :=
  ⟨rfl, by decide,
    C4_size_check 0 0 (fun p => if p = "tmp/a.mp4" then some (0 : Int) else none)
      "tmp/a.mp4" "save/a.mp4" rfl (by decide)⟩

open WebZipApi in
/-- Helper: each callback grows `downloaded_files ∪ failed_downloads` by
exactly one entry, never touches `message_ids`, and schedules
`create_zip_file` exactly when the new combined count reaches
`len(message_ids)`. -/
theorem applyEvent_step (m : WebZipApi.ZipDownloadManager) (e : WebZipApi.ZipEvent) :
    (applyEvent m e).message_ids = m.message_ids ∧
    (applyEvent m e).downloaded_files.length + (applyEvent m e).failed_downloads.length
      = m.downloaded_files.length + m.failed_downloads.length + 1 ∧
    (applyEvent m e).create_zip_scheduled =
      m.create_zip_scheduled +
        (if m.message_ids.length ≤
            m.downloaded_files.length + m.failed_downloads.length + 1 then 1 else 0) := by
  rcases e with ⟨mid, p, sz⟩ | ⟨mid, msg⟩ <;>
    · simp only [applyEvent, on_file_downloaded, on_file_failed]
      split_ifs with h1 h2 <;> simp_all <;> omega

open WebZipApi in
/-- Helper: a run of callbacks adds one resolved entry per event. -/
theorem runEvents_sum (evs : List WebZipApi.ZipEvent) :
    ∀ m : WebZipApi.ZipDownloadManager,
    (runEvents m evs).message_ids = m.message_ids ∧
    (runEvents m evs).downloaded_files.length + (runEvents m evs).failed_downloads.length
      = m.downloaded_files.length + m.failed_downloads.length + evs.length := by
  induction evs with
  | nil => intro m; simp [runEvents]
  | cons e rest ih =>
    intro m
    have hstep := applyEvent_step m e
    have := ih (applyEvent m e)
    simp only [runEvents, List.foldl_cons] at this ⊢
    refine ⟨by rw [this.1, hstep.1], ?_⟩
    rw [this.2, hstep.2.1]
    simp [Nat.add_comm, Nat.add_assoc, Nat.add_left_comm]

open WebZipApi in
/-- Helper: while the resolved count stays at or below
`len(message_ids)`, `create_zip_file` is scheduled exactly once — by the
event that makes the count reach `len(message_ids)` — and not at all if
the run stops short of it. -/
theorem runEvents_sched (evs : List WebZipApi.ZipEvent) :
    ∀ m : WebZipApi.ZipDownloadManager,
    m.downloaded_files.length + m.failed_downloads.length + evs.length ≤ m.message_ids.length →
    (runEvents m evs).create_zip_scheduled =
      m.create_zip_scheduled +
        (if m.downloaded_files.length + m.failed_downloads.length + evs.length
            = m.message_ids.length ∧ 0 < evs.length then 1 else 0) := by
  induction evs with
  | nil => intro m _; simp [runEvents]
  | cons e rest ih =>
    intro m hle
    obtain ⟨hM, hsum, hsched⟩ := applyEvent_step m e
    simp only [List.length_cons] at hle
    have hle' : (applyEvent m e).downloaded_files.length +
        (applyEvent m e).failed_downloads.length + rest.length ≤
        (applyEvent m e).message_ids.length := by
      rw [hM, hsum]; omega
    have hrec := ih (applyEvent m e) hle'
    rw [hM, hsum] at hrec
    simp only [runEvents, List.foldl_cons] at hrec ⊢
    rw [hrec, hsched]
    simp only [List.length_cons]
    split_ifs <;> omega

open WebZipApi in
/-- C2: for a ZIP job over message-id list `M`, with failures for the
media-less messages pre-recorded and every remaining id reported by
exactly one callback, `create_zip_file` is scheduled exactly once, only
by the final callback — the point where
`len(downloaded_files) + len(failed_downloads) = len(M)` — and never
while some constituent is unresolved (every proper prefix of the
callback sequence schedules nothing). -/
theorem C2_zip_completion (chat : Int) (M : List Int) (pre : List String)
    (evs : List WebZipApi.ZipEvent)
    (hcount : pre.length + evs.length = M.length)
    (hne : 0 < evs.length) :
    ((runEvents (initManager chat M pre) evs).create_zip_scheduled = 1) ∧
    (∀ k, k < evs.length →
      (runEvents (initManager chat M pre) (evs.take k)).create_zip_scheduled = 0) ∧
    ((runEvents (initManager chat M pre) evs).downloaded_files.length +
      (runEvents (initManager chat M pre) evs).failed_downloads.length = M.length) := by
  simp only [initManager]
  refine ⟨?_, ?_, ?_⟩
  · have := runEvents_sched evs ⟨chat, M, [], pre, 0⟩ (by simp; omega)
    simp only [List.length_nil] at this
    rw [this, if_pos ⟨by omega, hne⟩]
  · intro k hk
    have hlen : (evs.take k).length = k := by
      rw [List.length_take]; omega
    have := runEvents_sched (evs.take k) ⟨chat, M, [], pre, 0⟩
      (by simp [hlen]; omega)
    simp only [List.length_nil, hlen] at this
    rw [this]
    have hno : ¬(0 + pre.length + k = M.length ∧ 0 < k) := by
      rintro ⟨heq, -⟩
      omega
    rw [if_neg hno]
  · have := (runEvents_sum evs ⟨chat, M, [], pre, 0⟩).2
    simp only [List.length_nil] at this
    omega

open WebZipApi in
/-- Witness for C2: a three-message job where message 12 had no media
(pre-recorded failure), 11 downloads and 13 fails; the ZIP is scheduled
exactly once. -/
theorem C2_zip_completion_witness :
    ((["no media"] : List String).length +
        ([ZipEvent.downloaded 11 "f11.mp4" 5, ZipEvent.failed 13 "err"]).length
      = ([11, 12, 13] : List Int).length) ∧
    ((runEvents (initManager (-100123) [11, 12, 13] ["no media"])
        [ZipEvent.downloaded 11 "f11.mp4" 5, ZipEvent.failed 13 "err"]).create_zip_scheduled
      = 1) :=
  ⟨by decide,
    (C2_zip_completion (-100123) [11, 12, 13] ["no media"]
      [ZipEvent.downloaded 11 "f11.mp4" 5, ZipEvent.failed 13 "err"]
      (by decide) (by decide)).1⟩

open MediaDownloader in
/-- C5: for media type `t ∈ {audio, document, video}` with the computed
`file_format` not among `fileFormats[t]` and the first element of
`fileFormats[t]` not `"all"`, `download_media` returns `SkipDownload`
with no file; for every other media type, and whenever the format is
allowed or the first element is `"all"`, the format check passes. -/
theorem C5_format_gate (t : String) (ff : String → List String)
    (fmt : Option String) :
    (∀ a rest, t ∈ formatCheckedTypes → ff t = a :: rest →
      (∀ f, fmt = some f → f ∉ a :: rest) → a ≠ "all" →
      download_media_format_gate t ff fmt = FormatGate.skipNoFile) ∧
    (t ∉ formatCheckedTypes →
      download_media_format_gate t ff fmt = FormatGate.proceedToDownload) ∧
    (∀ f, fmt = some f → f ∈ ff t →
      download_media_format_gate t ff fmt = FormatGate.proceedToDownload) ∧
    (∀ rest, ff t = "all" :: rest →
      download_media_format_gate t ff fmt = FormatGate.proceedToDownload) := by
  refine ⟨?_, ?_, ?_, ?_⟩
  · intro a rest hmem hff hnotin hall
    rcases fmt with _ | f
    · simp [download_media_format_gate, can_download, hmem, hff, hall]
    · have h := hnotin f rfl
      simp only [List.mem_cons, not_or] at h
      simp [download_media_format_gate, can_download, hmem, hff, hall, h.1, h.2]
  · intro hmem
    simp [download_media_format_gate, can_download, hmem]
  · intro f hf hin
    subst hf
    by_cases hmem : t ∈ formatCheckedTypes
    · simp [download_media_format_gate, can_download, hmem, hin]
    · simp [download_media_format_gate, can_download, hmem]
  · intro rest hff
    by_cases hmem : t ∈ formatCheckedTypes
    · rcases fmt with _ | f
      · simp [download_media_format_gate, can_download, hmem, hff]
      · by_cases hin : f ∈ ff t
        · simp [download_media_format_gate, can_download, hmem, hin]
        · rw [hff] at hin
          simp [download_media_format_gate, can_download, hmem, hff, hin]
    · simp [download_media_format_gate, can_download, hmem]


namespace CustomDownload

/-- C9: immediately after `mark_downloaded(chat_id, message_id)` the id
is present in `downloaded_ids` for that chat and absent from
`failed_ids` for that chat (a success erases a prior failure record for
the same message), and `failed_ids` never retains an empty list for a
chat key.  The two hypotheses are the maintained state invariants:
failed lists hold each id at most once (`mark_failed` appends only when
absent) and no chat key maps to an empty list. -/
theorem C9_mark_downloaded (h : History) (ck : String) (mid : Int)
    (hdup : ∀ l, h.failed_ids ck = some l → l.count mid ≤ 1)
    (hinv : ∀ k, h.failed_ids k ≠ some []) :
    (mid ∈ ((mark_downloaded h ck mid).downloaded_ids ck).getD []) ∧
    (∀ l, (mark_downloaded h ck mid).failed_ids ck = some l → mid ∉ l) ∧
    (∀ k, (mark_downloaded h ck mid).failed_ids k ≠ some []) := by
  refine ⟨?_, ?_, ?_⟩
  · -- membership in downloaded_ids
    rcases hd : h.downloaded_ids ck with _ | l
    · simp [mark_downloaded, dictSet, hd]
    · by_cases hm : mid ∈ l
      · simp [mark_downloaded, dictSet, hd, hm]
      · simp [mark_downloaded, dictSet, hd, hm]
  · -- absence from failed_ids
    intro l hl
    rcases hf : h.failed_ids ck with _ | fl
    · simp only [mark_downloaded, hf] at hl
      simp at hl
    · by_cases hm : mid ∈ fl
      · have hcount := hdup fl hf
        by_cases he : fl.erase mid = []
        · simp only [mark_downloaded, hf, if_pos hm, he, if_pos rfl] at hl
          simp [dictDel] at hl
        · simp only [mark_downloaded, hf, if_pos hm, if_neg he] at hl
          simp only [dictSet, if_pos rfl] at hl
          cases hl
          have : (fl.erase mid).count mid = fl.count mid - 1 :=
            List.count_erase_self mid fl
          have : (fl.erase mid).count mid = 0 := by omega
          exact List.count_eq_zero.mp this
      · simp only [mark_downloaded, hf, if_neg hm] at hl
        cases hl
        exact hm
  · -- no empty failed lists retained
    intro k
    rcases hf : h.failed_ids ck with _ | fl
    · simp only [mark_downloaded, hf]
      exact hinv k
    · by_cases hm : mid ∈ fl
      · by_cases he : fl.erase mid = []
        · simp only [mark_downloaded, hf, if_pos hm, he, if_pos rfl]
          by_cases hk : k = ck
          · simp [dictDel, hk]
          · simp [dictDel, hk]
            exact hinv k
        · simp only [mark_downloaded, hf, if_pos hm, if_neg he]
          by_cases hk : k = ck
          · simp [dictSet, hk, he]
          · simp [dictSet, hk]
            exact hinv k
      · simp only [mark_downloaded, hf, if_neg hm]
        exact hinv k

end CustomDownload

open CustomDownload in
/-- Witness for C9 starting from an empty history: message 5 of chat
`-100123` is downloaded and recorded, with no failed entry left. -/
theorem C9_mark_downloaded_witness :
    (((⟨fun _ => none, fun _ => none⟩ : History).failed_ids "-100123") = none) ∧
    ((5 : Int) ∈ ((mark_downloaded ⟨fun _ => none, fun _ => none⟩ "-100123" 5).downloaded_ids
        "-100123").getD []) ∧
    (∀ k, (mark_downloaded ⟨fun _ => none, fun _ => none⟩ "-100123" 5).failed_ids k
      ≠ some []) :=
  ⟨rfl,
    (C9_mark_downloaded ⟨fun _ => none, fun _ => none⟩ "-100123" 5
      (fun l hl => absurd hl (by simp)) (fun k => by simp)).1,
    (C9_mark_downloaded ⟨fun _ => none, fun _ => none⟩ "-100123" 5
      (fun l hl => absurd hl (by simp)) (fun k => by simp)).2.2⟩

namespace CustomDownload

theorem aggregateOne_step (s : FinalizerState) (e : DownloadNodeEntry) :
    ((aggregateOne s e).successful_count
      = s.successful_count + (if isSuccessOutcome e then 1 else 0)) ∧
    ((aggregateOne s e).failed_count
      = s.failed_count + (if isSuccessOutcome e then 0 else 1)) ∧
    ((aggregateOne s e).pending_downloads = s.pending_downloads) ∧
    ((aggregateOne s e).download_nodes = s.download_nodes) ∧
    ((aggregateOne s e).history_saved = s.history_saved) := by
  rcases he : e.status with _ | st
  · simp [aggregateOne, isSuccessOutcome, he]
  · rcases st <;> simp [aggregateOne, isSuccessOutcome, he]

theorem aggregate_fold (nodes : List DownloadNodeEntry) : ∀ s : FinalizerState,
    ((nodes.foldl aggregateOne s).successful_count
        = s.successful_count + nodes.countP isSuccessOutcome) ∧
    ((nodes.foldl aggregateOne s).failed_count
        = s.failed_count + nodes.countP (fun e => !isSuccessOutcome e)) ∧
    ((nodes.foldl aggregateOne s).pending_downloads = s.pending_downloads) ∧
    ((nodes.foldl aggregateOne s).download_nodes = s.download_nodes) ∧
    ((nodes.foldl aggregateOne s).history_saved = s.history_saved) := by
  induction nodes with
  | nil => intro s; simp
  | cons e rest ih =>
    intro s
    obtain ⟨g1, g2, g3, g4, g5⟩ := aggregateOne_step s e
    obtain ⟨h1, h2, h3, h4, h5⟩ := ih (aggregateOne s e)
    simp only [List.foldl_cons, List.countP_cons]
    refine ⟨?_, ?_, ?_, ?_, ?_⟩
    · rw [h1, g1]
      rcases hiso : isSuccessOutcome e <;> simp [hiso] <;> omega
    · rw [h2, g2]
      rcases hiso : isSuccessOutcome e <;> simp [hiso] <;> omega
    · rw [h3, g3]
    · rw [h4, g4]
    · rw [h5, g5]

/-- C10: executing the tail of
`CustomDownloadManager.update_download_status` under Python semantics,
the statistics dict `{successful_count, failed_count, total_count}` is
the value returned (the last executed action); the `save_history()` call
and the clearing of `pending_downloads` and `download_nodes` written
after that `return` never execute, so the finalizer itself does not
persist the history mutations of the final aggregation and both
tracking collections are left exactly as they were. -/
theorem C10_finalizer_tail (s : FinalizerState) :
    ((execFinal finalizerTail s).2
        = some ⟨s.download_nodes.countP isSuccessOutcome,
                s.download_nodes.countP (fun e => !isSuccessOutcome e),
                s.download_nodes.countP isSuccessOutcome
                  + s.download_nodes.countP (fun e => !isSuccessOutcome e)⟩) ∧
    ((execFinal finalizerTail s).1.history_saved = s.history_saved) ∧
    ((execFinal finalizerTail s).1.pending_downloads = s.pending_downloads) ∧
    ((execFinal finalizerTail s).1.download_nodes = s.download_nodes) := by
  have hagg := aggregate_fold s.download_nodes
    { s with successful_count := 0, failed_count := 0 }
  simp only [execFinal, finalizerTail, applyFinalStmt, aggregateOutcomes]
  obtain ⟨h1, h2, h3, h4, h5⟩ := hagg
  simp only at h1 h2 h3 h4 h5
  simp [h1, h2, h3, h4, h5]

end CustomDownload


namespace BaseRepository

/-- Helper: every pair in the upsert conditions dict comes from a
successful lookup in `data`. -/
theorem upsertConds_lookup (uf : List String) (data : List (String × String)) :
    ∀ c ∈ upsertConds uf data, data.lookup c.1 = some c.2 := by
  intro c hc
  simp only [upsertConds, List.mem_filterMap] at hc
  obtain ⟨f, -, hf⟩ := hc
  rcases hv : data.lookup f with _ | v
  · rw [hv] at hf; simp at hf
  · rw [hv] at hf
    simp only [Option.map_some'] at hf
    cases hf
    simpa using hv

theorem insertRow_matches (uf : List String) (data : List (String × String)) (n : Nat) :
    rowMatches (upsertConds uf data) ⟨n, fun f => data.lookup f⟩ = true := by
  simp only [rowMatches, List.all_eq_true]
  intro c hc
  simp [upsertConds_lookup uf data c hc]

theorem patch_matches (uf : List String) (data : List (String × String)) (r : DbRow) :
    rowMatches (upsertConds uf data)
      { r with fields := fun f =>
          match data.lookup f with
          | some v => some v
          | none => r.fields f } = true := by
  simp only [rowMatches, List.all_eq_true]
  intro c hc
  have := upsertConds_lookup uf data c hc
  simp [this]

theorem update_rows_length (tbl : DbTable) (conds data : List (String × String)) :
    (update tbl conds data).rows.length = tbl.rows.length := by
  unfold update
  split_ifs <;> simp

theorem filter_map_length {α : Type} (g : α → α) (p : α → Bool)
    (h : ∀ r, p (g r) = p r) (l : List α) :
    ((l.map g).filter p).length = (l.filter p).length := by
  induction l with
  | nil => simp
  | cons r rest ih =>
    simp only [List.map_cons, List.filter_cons, h r]
    split_ifs <;> simp [ih]

theorem update_matchCount (tbl : DbTable) (uf : List String)
    (data : List (String × String)) :
    matchCount (update tbl (upsertConds uf data) data) (upsertConds uf data)
      = matchCount tbl (upsertConds uf data) := by
  unfold update
  split_ifs with h
  · rfl
  · simp only [matchCount]
    apply filter_map_length
    intro r
    by_cases hr : rowMatches (upsertConds uf data) r = true
    · rw [if_pos hr, patch_matches uf data r, hr]
    · rw [if_neg hr]

theorem find?_append_none {α : Type} (p : α → Bool) (l₁ l₂ : List α)
    (h : l₁.find? p = none) : (l₁ ++ l₂).find? p = l₂.find? p := by
  induction l₁ with
  | nil => simp
  | cons a rest ih =>
    simp only [List.find?_cons] at h ⊢
    rcases hp : p a with _ | _
    · rw [hp] at h
      simp only [List.cons_append, List.find?_cons, hp]
      exact ih (by simpa [hp] using h)
    · rw [hp] at h
      simp at h

/-- C8: for any repository table, record and set of unique key fields
(present in the record), calling `upsert(uniqueFields, r)` twice with the
same key values starting from a table with no row for those keys leaves
exactly one row for those key values; the second call updates the
existing row instead of inserting a new one (row count unchanged) and
returns that row's id — the same id the first call returned. -/
theorem C8_upsert_idempotent (tbl : DbTable) (uf : List String)
    (data : List (String × String))
    (hconds : upsertConds uf data ≠ [])
    (hinit : matchCount tbl (upsertConds uf data) = 0) :
    (matchCount (upsert (upsert tbl uf data).2 uf data).2 (upsertConds uf data) = 1) ∧
    ((upsert (upsert tbl uf data).2 uf data).2.rows.length
      = (upsert tbl uf data).2.rows.length) ∧
    ((upsert (upsert tbl uf data).2 uf data).1 = (upsert tbl uf data).1) ∧
    (∃ row ∈ (upsert (upsert tbl uf data).2 uf data).2.rows,
      rowMatches (upsertConds uf data) row = true ∧
      (upsert (upsert tbl uf data).2 uf data).1 = some row.id) := by
  have hdata : data ≠ [] := by
    rcases hc : upsertConds uf data with _ | ⟨c, cs⟩
    · exact absurd hc hconds
    · have hcl := upsertConds_lookup uf data c (by rw [hc]; exact List.mem_cons_self c cs)
      intro hd
      rw [hd] at hcl
      simp at hcl
  have hdataE : data.isEmpty = false := by
    rcases data with _ | _
    · exact absurd rfl hdata
    · rfl
  have hcondsE : (upsertConds uf data).isEmpty = false := by
    rcases hc : upsertConds uf data with _ | _
    · exact absurd hc hconds
    · rfl
  have hnone : ∀ r ∈ tbl.rows, ¬ rowMatches (upsertConds uf data) r = true := by
    have hfe : tbl.rows.filter (rowMatches (upsertConds uf data)) = [] :=
      List.length_eq_zero.mp hinit
    intro r hr hm
    exact (List.filter_eq_nil_iff.mp hfe) r hr hm
  have hfind : find_one tbl (upsertConds uf data) = none := by
    unfold find_one
    rw [List.find?_eq_none]
    exact hnone
  have h1 : upsert tbl uf data =
      (some tbl.next_id,
        ⟨tbl.rows ++ [⟨tbl.next_id, fun f => data.lookup f⟩], tbl.next_id + 1⟩) := by
    simp only [upsert, hfind, insert, hdataE]
    simp
  set newRow : DbRow := ⟨tbl.next_id, fun f => data.lookup f⟩ with hnr
  set t1 : DbTable := ⟨tbl.rows ++ [newRow], tbl.next_id + 1⟩ with ht1
  have hfind2 : find_one t1 (upsertConds uf data) = some newRow := by
    unfold find_one
    show (tbl.rows ++ [newRow]).find? (rowMatches (upsertConds uf data)) = some newRow
    rw [find?_append_none _ _ _ (List.find?_eq_none.mpr hnone)]
    simp [List.find?_cons, insertRow_matches uf data tbl.next_id, hnr]
  have h2 : upsert t1 uf data =
      (some newRow.id, update t1 (upsertConds uf data) data) := by
    simp only [upsert, hfind2]
  rw [h1]
  simp only
  rw [h2]
  have hcount1 : matchCount t1 (upsertConds uf data) = 1 := by
    simp only [matchCount, ht1, List.filter_append, List.length_append]
    simp only [matchCount] at hinit
    rw [hinit]
    simp [List.filter_cons, insertRow_matches uf data tbl.next_id, hnr]
  refine ⟨?_, ?_, ?_, ?_⟩
  · rw [update_matchCount t1 uf data, hcount1]
  · exact update_rows_length t1 (upsertConds uf data) data
  · simp [hnr]
  · refine ⟨⟨newRow.id, fun f =>
        match data.lookup f with
        | some v => some v
        | none => newRow.fields f⟩, ?_, ?_, ?_⟩
    · simp only [update, hcondsE, hdataE, Bool.or_self, Bool.false_eq_true, if_false]
      apply List.mem_map.mpr
      refine ⟨newRow, ?_, ?_⟩
      · exact List.mem_append_right _ (List.mem_singleton.mpr rfl)
      · rw [if_pos]
        exact insertRow_matches uf data tbl.next_id
    · exact patch_matches uf data newRow
    · simp [hnr]

end BaseRepository

open BaseRepository in
/-- Witness for C8: upserting the same `(chat_id, message_id)` record
twice into an empty table leaves exactly one matching row. -/
theorem C8_upsert_idempotent_witness :
    (upsertConds ["chat_id", "message_id"]
        [("chat_id", "-100123"), ("message_id", "5"), ("file_name", "a.mp4")] ≠ []) ∧
    (matchCount ⟨[], 0⟩ (upsertConds ["chat_id", "message_id"]
        [("chat_id", "-100123"), ("message_id", "5"), ("file_name", "a.mp4")]) = 0) ∧
    (matchCount
        (upsert (upsert ⟨[], 0⟩ ["chat_id", "message_id"]
            [("chat_id", "-100123"), ("message_id", "5"), ("file_name", "a.mp4")]).2
          ["chat_id", "message_id"]
          [("chat_id", "-100123"), ("message_id", "5"), ("file_name", "a.mp4")]).2
        (upsertConds ["chat_id", "message_id"]
          [("chat_id", "-100123"), ("message_id", "5"), ("file_name", "a.mp4")]) = 1) :=
  ⟨by decide, by decide,
    (C8_upsert_idempotent ⟨[], 0⟩ ["chat_id", "message_id"]
      [("chat_id", "-100123"), ("message_id", "5"), ("file_name", "a.mp4")]
      (by decide) (by decide)).1⟩

open AppDb in
/-- C7 (amended): only the config-save path retries lock contention —
`save_config_to_database` makes at most 3 attempts with backoff sleeps
of 2 s then 4 s before the error surfaces (an 8-second sleep never
occurs, the source comment notwithstanding) — while repository writes
(`BaseRepository.insert`, `DatabaseManager.execute_query`) perform no
retry and no backoff: a lock-contention error surfaces immediately. -/
theorem C7_retry_scope (attempts : Nat → AppDb.WriteAttemptOutcome)
    (outcome : AppDb.WriteAttemptOutcome) (rowid : Nat) :
    ((repository_write outcome rowid).2 = []) ∧
    (outcome = WriteAttemptOutcome.lockedError →
      (repository_write outcome rowid).1 = RepoWriteResult.raisedImmediately) ∧
    ((save_config_to_database attempts).2 = [] ∨
      (save_config_to_database attempts).2 = [2] ∨
      (save_config_to_database attempts).2 = [2, 4]) ∧
    ((∀ k, attempts k = WriteAttemptOutcome.lockedError) →
      save_config_to_database attempts = (SaveResult.gaveUpLocked, [2, 4])) := by
  refine ⟨?_, ?_, ?_, ?_⟩
  · rcases outcome <;> rfl
  · intro h; subst h; rfl
  · rcases h0 : attempts 0 <;> rcases h1 : attempts 1 <;> rcases h2 : attempts 2 <;>
      simp [save_config_to_database, saveConfigLoop, h0, h1, h2]
  · intro hall
    simp [save_config_to_database, saveConfigLoop, hall 0, hall 1, hall 2]

open AppDb in
/-- Witness for C7 (amended): every attempt hits lock contention; the
config save sleeps 2 s and 4 s and gives up; a repository insert raises
at once with no sleep. -/
theorem C7_retry_scope_witness :
    ((fun _ => WriteAttemptOutcome.lockedError) 0 = WriteAttemptOutcome.lockedError) ∧
    ((repository_write WriteAttemptOutcome.lockedError 1).1
      = RepoWriteResult.raisedImmediately) ∧
    (save_config_to_database (fun _ => WriteAttemptOutcome.lockedError)
      = (SaveResult.gaveUpLocked, [2, 4])) :=
  ⟨rfl,
    (C7_retry_scope (fun _ => WriteAttemptOutcome.lockedError)
      WriteAttemptOutcome.lockedError 1).2.1 rfl,
    (C7_retry_scope (fun _ => WriteAttemptOutcome.lockedError)
      WriteAttemptOutcome.lockedError 1).2.2.2 (fun _ => rfl)⟩

open AppDb in
/-- Counterexample to C7 as stated: a repository write
(`BaseRepository.insert` / `DatabaseManager.execute_query`) hitting a
"database is locked" error is *not* retried with 2 s/4 s/8 s backoff —
it surfaces immediately with zero sleeps; and even the config-save path,
the only one that retries, sleeps 2 s and 4 s but never 8 s. -/
theorem C7_counterexample :
    ((repository_write WriteAttemptOutcome.lockedError 1)
      = (RepoWriteResult.raisedImmediately, [])) ∧
    (save_config_to_database (fun _ => WriteAttemptOutcome.lockedError)
      = (SaveResult.gaveUpLocked, [2, 4])) ∧
    ((8 : Int) ∉ (save_config_to_database (fun _ => WriteAttemptOutcome.lockedError)).2) := by
  refine ⟨rfl, rfl, ?_⟩
  decide

open DownloadStat in
/-- Helper: with a clear stop flag and no `Cancelled` observation, the
pause loop neither returns through the Cancelled re-check nor issues a
`stop_transmission` call. -/
theorem pauseLoop_no_cancel_no_stop (obs : List DownloadStat.PauseObs) :
    ∀ ps : Int, (∀ o ∈ obs, o.cancelState ≠ DownloadState.Cancelled) →
      (pauseLoop ps false obs).2 ≠ PauseOutcome.cancelledReturn ∧
      ClientAction.stopTransmission ∉ (pauseLoop ps false obs).1 := by
  induction obs with
  | nil => intro ps _; simp [pauseLoop]
  | cons o rest ih =>
    intro ps hobs
    have ho := hobs o (List.mem_cons_self o rest)
    have hrest : ∀ x ∈ rest, x.cancelState ≠ DownloadState.Cancelled :=
      fun x hx => hobs x (List.mem_cons_of_mem o hx)
    by_cases hw : o.whileState = DownloadState.StopDownload
    · by_cases ht : o.checkTime - ps > pause_timeout
      · simp [pauseLoop, hw, ho, ht]
      · have := ih ps hrest
        simp only [pauseLoop, hw, ho, ht] at *
        simp_all [pauseLoop]
    · simp [pauseLoop, hw]

open DownloadStat in
/-- C1 (amended): `update_download_status` consults no
`(chat_id, message_id) → manager_id` registry.  Its behaviour is
independent of the node's ZIP-manager id, and with a clear stop flag it
sets `is_stop_transmission` and stops the transmission only in response
to a `Cancelled` state observation — never because another ZIP manager
has taken over the same `(chat_id, message_id)`. -/
theorem C1_no_overtake_check (node : DownloadStat.TaskNode)
    (entryState : DownloadStat.DownloadState) (ps : Int)
    (obs : List DownloadStat.PauseObs)
    (hflag : node.is_stop_transmission = false)
    (hentry : entryState ≠ DownloadState.Cancelled)
    (hobs : ∀ o ∈ obs, o.cancelState ≠ DownloadState.Cancelled) :
    ((update_download_status node entryState ps obs).node.is_stop_transmission = false) ∧
    (ClientAction.stopTransmission ∉ (update_download_status node entryState ps obs).actions) ∧
    (∀ z : Option Nat,
      ((update_download_status { node with zip_manager_id := z } entryState ps obs).actions
        = (update_download_status node entryState ps obs).actions) ∧
      ((update_download_status { node with zip_manager_id := z } entryState ps obs).outcome
        = (update_download_status node entryState ps obs).outcome) ∧
      ((update_download_status { node with zip_manager_id := z }
          entryState ps obs).node.is_stop_transmission
        = (update_download_status node entryState ps obs).node.is_stop_transmission)) := by
  have hp := pauseLoop_no_cancel_no_stop obs ps hobs
  refine ⟨?_, ?_, ?_⟩
  · unfold update_download_status
    simp only [hflag, if_neg hentry]
    rcases hlp : (pauseLoop ps false obs).2 with _ | _ | _ | _ <;>
      simp_all [update_download_status]
  · unfold update_download_status
    simp only [hflag, if_neg hentry]
    rcases hlp : (pauseLoop ps false obs).2 with _ | _ | _ | _ <;>
      simp_all [update_download_status]
  · intro z
    unfold update_download_status
    simp only [hflag, if_neg hentry]
    rcases hlp : (pauseLoop ps false obs).2 with _ | _ | _ | _ <;> simp_all

open DownloadStat in
/-- Witness for C1 (amended): a node owned by ZIP manager 1 while the
live download state is `Downloading`: no stop, flag stays clear, result
independent of the manager id. -/
theorem C1_no_overtake_check_witness :
    (c1Node.is_stop_transmission = false) ∧
    (DownloadState.Downloading ≠ DownloadState.Cancelled) ∧
    ((update_download_status c1Node DownloadState.Downloading 0 c1Obs).node.is_stop_transmission
        = false) ∧
    (ClientAction.stopTransmission
        ∉ (update_download_status c1Node DownloadState.Downloading 0 c1Obs).actions) :=
  ⟨rfl, by decide,
    (C1_no_overtake_check c1Node DownloadState.Downloading 0 c1Obs rfl (by decide)
      (by decide)).1,
    (C1_no_overtake_check c1Node DownloadState.Downloading 0 c1Obs rfl (by decide)
      (by decide)).2.1⟩

open DownloadStat in
/-- Counterexample to C1 as stated: the registry holds manager 2 for
every `(chat_id, message_id)` while the node belongs to manager 1, yet
`update_download_status` (as written in
`src/module/download_stat.py`) neither sets `is_stop_transmission` nor
stops the transmission nor returns early — it proceeds to the
bookkeeping.  The spec-modelled callback
(`update_download_status_specOvertake`) would have stopped the node, so
the source refines the spec's words nowhere: no registry exists. -/
theorem C1_counterexample :
    (c1Registry (c1Node.chat_id, 7) ≠ c1Node.zip_manager_id) ∧
    (c1Node.zip_manager_id.isSome = true) ∧
    ((update_download_status c1Node DownloadState.Downloading 0 c1Obs).node.is_stop_transmission
        = false) ∧
    ((update_download_status c1Node DownloadState.Downloading 0 c1Obs).actions = []) ∧
    ((update_download_status c1Node DownloadState.Downloading 0 c1Obs).outcome
        = UpdateOutcome.proceeded) ∧
    ((update_download_status_specOvertake c1Registry 7 c1Node
        DownloadState.Downloading 0 c1Obs).node.is_stop_transmission = true) := by
  decide

open DownloadStat in
/-- Helper: if every observed time is at least one second later per
iteration (`asyncio.sleep(1)` between clock checks), the pause loop
sleeps at most `301 - k` more times. -/
theorem pauseLoop_sleep_bound (obs : List DownloadStat.PauseObs) :
    ∀ (ps : Int) (flag : Bool) (k : Nat),
      (∀ i, ∀ h : i < obs.length, ps + (k + i : Nat) ≤ (obs.get ⟨i, h⟩).checkTime) →
      (pauseLoop ps flag obs).1.count ClientAction.sleepOneSecond ≤ 301 - k := by
  induction obs with
  | nil => intro ps flag k _; simp [pauseLoop]
  | cons o rest ih =>
    intro ps flag k htime
    by_cases hw : o.whileState = DownloadState.StopDownload
    · by_cases hc : o.cancelState = DownloadState.Cancelled
      · simp [pauseLoop, hw, hc]
      · by_cases ht : o.checkTime - ps > pause_timeout
        · simp [pauseLoop, hw, hc, ht]
        · have h0 : ps + (k : Nat) ≤ o.checkTime := by
            have := htime 0 (by simp)
            simpa using this
          have hk : k ≤ 300 := by
            simp only [pause_timeout, not_lt] at ht
            omega
          have hrest : ∀ i, ∀ h : i < rest.length,
              ps + ((k + 1) + i : Nat) ≤ (rest.get ⟨i, h⟩).checkTime := by
            intro i hi
            have := htime (i + 1) (by simpa using Nat.succ_lt_succ hi)
            simpa [Nat.add_assoc, Nat.add_comm, Nat.add_left_comm] using this
          have := ih ps flag (k + 1) hrest
          simp only [pauseLoop, hw, hc, ht]
          rcases flag with _ | _ <;> simp_all <;> omega
    · simp [pauseLoop, hw]

open DownloadStat in
/-- Helper: while the state stays `StopDownload` and is never observed
`Cancelled`, the loop ends in the timeout `break` as soon as some
observation's clock exceeds the 300-second budget. -/
theorem pauseLoop_breaks (obs : List DownloadStat.PauseObs) :
    ∀ (ps : Int) (flag : Bool),
      (∀ o ∈ obs, o.whileState = DownloadState.StopDownload ∧
        o.cancelState ≠ DownloadState.Cancelled) →
      (∃ i, ∃ h : i < obs.length, (obs.get ⟨i, h⟩).checkTime - ps > pause_timeout) →
      (pauseLoop ps flag obs).2 = PauseOutcome.brokeTimeout := by
  induction obs with
  | nil => intro ps flag _ hex; rcases hex with ⟨i, h, _⟩; simp at h
  | cons o rest ih =>
    intro ps flag hobs hex
    have ho := hobs o (List.mem_cons_self o rest)
    have hrest : ∀ x ∈ rest, x.whileState = DownloadState.StopDownload ∧
        x.cancelState ≠ DownloadState.Cancelled :=
      fun x hx => hobs x (List.mem_cons_of_mem o hx)
    by_cases ht : o.checkTime - ps > pause_timeout
    · simp [pauseLoop, ho.1, ho.2, ht]
    · have hex' : ∃ i, ∃ h : i < rest.length,
          (rest.get ⟨i, h⟩).checkTime - ps > pause_timeout := by
        rcases hex with ⟨i, hi, hgt⟩
        rcases i with _ | j
        · exact absurd (by simpa using hgt) ht
        · exact ⟨j, by simpa using Nat.lt_of_succ_lt_succ hi, by simpa using hgt⟩
      have := ih ps flag hrest hex'
      simp [pauseLoop, ho.1, ho.2, ht, this]

open DownloadStat in
/-- C6 (amended): the pause handling of `update_download_status` —
(a) with clock checks at least one second apart the loop performs at
most 301 sleeps; (b) a pause held past the 300-second budget makes the
loop `break` at the first check whose elapsed time strictly exceeds
300 s, after which the callback proceeds as if unpaused; (c) a
`Cancelled` observation at the per-iteration re-check sets
`is_stop_transmission`, stops the transmission, and returns. -/
theorem C6_pause_timeout (node : DownloadStat.TaskNode)
    (entryState : DownloadStat.DownloadState) (ps : Int)
    (obs : List DownloadStat.PauseObs)
    (hentry : entryState ≠ DownloadState.Cancelled)
    (htime : ∀ i, ∀ h : i < obs.length, ps + (i : Nat) ≤ (obs.get ⟨i, h⟩).checkTime) :
    ((pauseLoop ps node.is_stop_transmission obs).1.count ClientAction.sleepOneSecond ≤ 301) ∧
    ((∀ o ∈ obs, o.whileState = DownloadState.StopDownload ∧
        o.cancelState ≠ DownloadState.Cancelled) → 302 ≤ obs.length →
      (pauseLoop ps node.is_stop_transmission obs).2 = PauseOutcome.brokeTimeout ∧
      (update_download_status node entryState ps obs).outcome = UpdateOutcome.proceeded) ∧
    (∀ o rest, obs = o :: rest → o.whileState = DownloadState.StopDownload →
      o.cancelState = DownloadState.Cancelled →
      (update_download_status node entryState ps obs).node.is_stop_transmission = true ∧
      (update_download_status node entryState ps obs).outcome
        = UpdateOutcome.returnedCancelledPaused ∧
      ClientAction.stopTransmission ∈ (update_download_status node entryState ps obs).actions) := by
  refine ⟨?_, ?_, ?_⟩
  · have := pauseLoop_sleep_bound obs ps node.is_stop_transmission 0 (by simpa using htime)
    simpa using this
  · intro hall hlen
    have h301 : 301 < obs.length := by omega
    have hbreak : (pauseLoop ps node.is_stop_transmission obs).2
        = PauseOutcome.brokeTimeout := by
      apply pauseLoop_breaks obs ps node.is_stop_transmission hall
      refine ⟨301, h301, ?_⟩
      have := htime 301 h301
      simp only [pause_timeout]
      omega
    refine ⟨hbreak, ?_⟩
    unfold update_download_status
    simp [if_neg hentry, hbreak]
  · intro o rest hobs hw hc
    subst hobs
    unfold update_download_status
    simp [if_neg hentry, pauseLoop, hw, hc]

set_option maxRecDepth 100000 in
open DownloadStat in
/-- Witness for C6 (amended), applying the theorem on the held-pause
trace `c6Trace`: the loop breaks out by timeout and the callback
proceeds. -/
theorem C6_pause_timeout_witness :
    (DownloadState.Downloading ≠ DownloadState.Cancelled) ∧
    ((pauseLoop 0 false c6Trace).2 = PauseOutcome.brokeTimeout ∧
      (update_download_status ⟨-100123, false, none⟩ DownloadState.Downloading 0
        c6Trace).outcome = UpdateOutcome.proceeded) :=
  ⟨by decide,
    (C6_pause_timeout ⟨-100123, false, none⟩ DownloadState.Downloading 0 c6Trace
      (by decide) (by decide)).2.1 (by decide) (by decide)⟩

set_option maxRecDepth 100000 in
open DownloadStat in
/-- Counterexample to C6 as stated ("no single progress callback is held
by pause for more than the timeout"): a pause held from `t = 0` with
checks every second is still sleeping at the check performed at elapsed
time 300 (the code breaks only when `elapsed > 300`), performs 301
one-second sleeps in total, and breaks only at the check at `t = 301` —
so the callback is held for 301 seconds, strictly more than the
300-second timeout. -/
theorem C6_counterexample :
    ((pauseLoop 0 false c6Trace).2 = PauseOutcome.brokeTimeout) ∧
    ((pauseLoop 0 false c6Trace).1.count ClientAction.sleepOneSecond = 301) ∧
    ((301 : Int) - 0 > pause_timeout) := by
  decide

open MediaDownloader in
/-- Witness for C5: a `video` whose mime suffix `avi` is not in
`fileFormats["video"] = ["mp4"]` is skipped with no file produced. -/
theorem C5_format_gate_witness :
    (("video" : String) ∈ formatCheckedTypes) ∧
    ((fun _ => ["mp4"]) "video" = "mp4" :: ([] : List String)) ∧
    (download_media_format_gate "video" (fun _ => ["mp4"]) (some "avi")
      = FormatGate.skipNoFile) :=
  ⟨by decide, rfl,
    (C5_format_gate "video" (fun _ => ["mp4"]) (some "avi")).1 "mp4" []
      (by decide) rfl (by decide) (by decide)⟩
